import Mathlib

/-
Verification of colour-specio: a shallow embedding of the measurement
model, the CR serial protocol client, and the CSMF binary container
codec, with theorems settling the specified properties.

Modelling conventions:
* Python floats are embedded as exact rationals (ℚ) wherever the code
  does arithmetic on them; where the code treats floats purely as
  preserved payloads (the spectral sample values stored in a CSMF file
  and hashed for the shortname) they are embedded as their 64-bit IEEE754
  bit patterns (a Nat), since the code hashes the raw float64 bytes.
* Fallible Python code is embedded as Except: a raised exception is an
  .error value.
* The serial port is embedded as the list of complete lines currently
  buffered from the device; readline pops the next line, or returns the
  empty line on timeout.
-/

namespace Specio

/-- Python exceptions relevant to the embedded code paths. -/
inductive PyErr where
  | indexError
  | valueError (msg : String)
  | measurementError (msg : String)
  deriving DecidableEq, Repr

/-- Python truthiness of an optional string: `None` and `""` are falsy. -/
def pyTruthyStr (s : Option String) : Bool :=
  match s with
  | none => false
  | some t => t ≠ ""

/-- Python `int(q)` on a float: truncation toward zero. -/
def pyTrunc (q : ℚ) : ℤ :=
  if 0 ≤ q then ⌊q⌋ else ⌈q⌉

/-- Fractional part as returned by `np.modf`: `q - int(q)`, signed toward zero. -/
def pyModfFrac (q : ℚ) : ℚ :=
  q - (pyTrunc q : ℚ)

/-- Source `np.ptp`: max minus min of a value list.  Total here; `np.ptp` raises
on an empty array, which the codec models by an explicit emptiness check
at its call site. -/
def ptpQ (l : List ℚ) : ℚ :=
  match l with
  | [] => 0
  | a :: rest => rest.foldl max a - rest.foldl min a

/-- Arithmetic mean of a rational list (`np.mean`). -/
def meanQ (l : List ℚ) : ℚ :=
  l.sum / (l.length : ℚ)

/-- Columnwise sum of equal-length rows, the reduction inside
`np.asarray(rows).mean(axis=0)`. -/
def sumRows : List (List ℚ) → List ℚ
  | [] => []
  | [r] => r
  | r :: rs => r.zipWith (· + ·) (sumRows rs)

/-- Source `np.asarray(rows).mean(axis=0)` for equal-length rows. -/
def meanAxis0 (rows : List (List ℚ)) : List ℚ :=
  (sumRows rows).map (· / (rows.length : ℚ))

/- ## XXH32

`Measurement_List.shortname` hashes the concatenated spectral values
with `xxhash.xxh32_hexdigest`.  The algorithm below is XXH32 over a byte
list, with 32-bit words as naturals reduced mod 2^32. -/

def M32 : ℕ := 4294967296

def XXP1 : ℕ := 2654435761
def XXP2 : ℕ := 2246822519
def XXP3 : ℕ := 3266489917
def XXP4 : ℕ := 668265263
def XXP5 : ℕ := 374761393

/-- Left rotation of a 32-bit word. -/
def rotl32 (x r : ℕ) : ℕ :=
  ((x <<< r) ||| (x >>> (32 - r))) % M32

/-- Little-endian 32-bit word from four bytes. -/
def read32LE (b0 b1 b2 b3 : ℕ) : ℕ :=
  b0 + 256 * b1 + 65536 * b2 + 16777216 * b3

/-- XXH32 final avalanche. -/
def avalanche32 (a : ℕ) : ℕ :=
  let a1 := (a ^^^ (a >>> 15)) % M32
  let a2 := a1 * XXP2 % M32
  let a3 := (a2 ^^^ (a2 >>> 13)) % M32
  let a4 := a3 * XXP3 % M32
  (a4 ^^^ (a4 >>> 16)) % M32

/-- XXH32 stripe round for one accumulator lane. -/
def xxRound (acc lane : ℕ) : ℕ :=
  rotl32 ((acc + lane * XXP2) % M32) 13 * XXP1 % M32

/-- Process 16-byte stripes through the four accumulators while at least
16 bytes remain; returns the accumulators and the remaining bytes. -/
def xxh32_stripes (v1 v2 v3 v4 : ℕ) :
    List ℕ → (ℕ × ℕ × ℕ × ℕ) × List ℕ
  | b0 :: b1 :: b2 :: b3 :: b4 :: b5 :: b6 :: b7 ::
    b8 :: b9 :: b10 :: b11 :: b12 :: b13 :: b14 :: b15 :: rest =>
      xxh32_stripes (xxRound v1 (read32LE b0 b1 b2 b3))
        (xxRound v2 (read32LE b4 b5 b6 b7))
        (xxRound v3 (read32LE b8 b9 b10 b11))
        (xxRound v4 (read32LE b12 b13 b14 b15)) rest
  | rest => ((v1, v2, v3, v4), rest)

/-- Consume remaining 4-byte lanes of the tail. -/
def xxh32_lanes4 (acc : ℕ) : List ℕ → ℕ × List ℕ
  | b0 :: b1 :: b2 :: b3 :: rest =>
      xxh32_lanes4 (rotl32 ((acc + read32LE b0 b1 b2 b3 * XXP3) % M32) 17 * XXP4 % M32) rest
  | rest => (acc, rest)

/-- Consume the final single bytes of the tail. -/
def xxh32_lanes1 (acc : ℕ) : List ℕ → ℕ
  | b :: rest => xxh32_lanes1 (rotl32 ((acc + b * XXP5) % M32) 11 * XXP1 % M32) rest
  | [] => acc

/-- XXH32 of a byte list with the given seed (`xxhash.xxh32`). -/
def xxh32 (bytes : List ℕ) (seed : ℕ) : ℕ :=
  let len := bytes.length
  if len < 16 then
    let acc := ((seed + XXP5) % M32 + len) % M32
    let s := xxh32_lanes4 acc bytes
    avalanche32 (xxh32_lanes1 s.1 s.2)
  else
    let v1 := (seed + XXP1 + XXP2) % M32
    let v2 := (seed + XXP2) % M32
    let v3 := seed % M32
    let v4 := (seed + (M32 - XXP1 % M32)) % M32
    let s := xxh32_stripes v1 v2 v3 v4 bytes
    let acc0 := (((rotl32 s.1.1 1 + rotl32 s.1.2.1 7) % M32 +
        rotl32 s.1.2.2.1 12) % M32 + rotl32 s.1.2.2.2 18) % M32
    let acc := (acc0 + len) % M32
    let t := xxh32_lanes4 acc s.2
    avalanche32 (xxh32_lanes1 t.1 t.2)

/-- Lowercase hex digit. -/
def hexDigit (n : ℕ) : Char :=
  if n < 10 then Char.ofNat (48 + n) else Char.ofNat (87 + n)

/-- Eight-character lowercase big-endian hex rendering of a 32-bit value,
as produced by `xxhash.xxh32_hexdigest`. -/
def hex8 (n : ℕ) : String :=
  String.mk ((List.range 8).map fun i => hexDigit (n / 16 ^ (7 - i) % 16))

/-- The eight little-endian bytes of a float64 bit pattern, as exposed by
`np.ascontiguousarray(values).data` for a float64 array. -/
def f64LEBytes (v : ℕ) : List ℕ :=
  [v % 256, v / 256 % 256, v / 65536 % 256, v / 16777216 % 256,
   v / 4294967296 % 256, v / 1099511627776 % 256,
   v / 281474976710656 % 256, v / 72057594037927936 % 256]

/- ## CSMF data model (`specio/serialization/csmf.py`)

Spectral sample values are embedded as float64 bit patterns (Nat),
because the codec stores them verbatim and `shortname` hashes their raw
bytes.  All other float scalars are embedded as exact rationals: the
codec stores them verbatim as well, so only their exact preservation
matters.  Timestamps are embedded as their ISO-8601 strings:
`datetime.fromisoformat(t.isoformat())` restores the datetime exactly,
so the save/load pair acts as the identity on the string. -/

/-- Source `MeasurementList_Notes`: dataclass of optional metadata strings;
`software` defaults to "colour-specio".  Dataclass equality is
field-wise, and Python distinguishes `None` from `""`. -/
structure MeasurementList_Notes where
  notes : Option String
  author : Option String
  location : Option String
  software : Option String
  deriving DecidableEq, Repr

/-- The all-default `MeasurementList_Notes()`. -/
def defaultNotes : MeasurementList_Notes :=
  ⟨none, none, none, some "colour-specio"⟩

/-- Source `colour.SpectralShape`: a uniform wavelength domain (start, end,
interval).  The source's `end` field is spelled `end_` here. -/
structure SpectralShapeRec where
  start : ℚ
  end_ : ℚ
  step : ℚ
  deriving DecidableEq, Repr

/-- The fields of an `SPDMeasurement` viewed by the CSMF codec: the
spectral distribution (uniform domain plus sample values and the colour
object name), the exposure, the derived colorimetric quantities and the
identification data.  Sample values are float64 bit patterns. -/
structure SPDMeasurementRec where
  shape : SpectralShapeRec
  values : List ℕ
  name : String
  exposure : ℚ
  XYZ : ℚ × ℚ × ℚ
  xy : ℚ × ℚ
  cct : ℚ
  duv : ℚ
  dominant_wl : ℚ
  purity : ℚ
  power : ℚ
  time : String
  spectrometer_id : String
  deriving DecidableEq, Repr

/-- Source `SPDMeasurement.__eq__`: all of "spd", "exposure",
"spectrometer_id", "XYZ", "xy", "dominant_wl", "purity", "power",
"time", "cct", "duv" equal.  The spd comparison is colour's
`Signal.__eq__`, which compares domain and range but not the name. -/
def spdMeasRecEq (a b : SPDMeasurementRec) : Bool :=
  a.shape == b.shape && a.values == b.values &&
  a.exposure == b.exposure && a.spectrometer_id == b.spectrometer_id &&
  a.XYZ == b.XYZ && a.xy == b.xy && a.dominant_wl == b.dominant_wl &&
  a.purity == b.purity && a.power == b.power && a.time == b.time &&
  a.cct == b.cct && a.duv == b.duv

/-- Source `Measurement_List`: measurements, test colors, presentation order
and metadata.  Test colors are a rectangular numeric array, embedded as
rows of rationals. -/
structure Measurement_List where
  test_colors : List (List ℚ)
  order : List ℤ
  measurements : List SPDMeasurementRec
  metadata : MeasurementList_Notes
  deriving DecidableEq, Repr

/-- The sample-value matrix of
`MultiSpectralDistributions([m.spd for m in measurements])`: one row per
wavelength, one column per measurement (all measurements sharing one
domain, as produced by the acquisition pipeline). -/
def msdValues (ms : List SPDMeasurementRec) : List (List ℕ) :=
  (ms.map (·.values)).transpose

/-- The row-major float64 byte stream of the sample-value matrix,
`np.ascontiguousarray(spds.values).data`. -/
def msdBytes (ms : List SPDMeasurementRec) : List ℕ :=
  ((msdValues ms).flatten.map f64LEBytes).flatten

/-- Source `Measurement_List.shortname`: `metadata.notes` unless it is `None`
or empty, in which case the xxh32 hex digest of the concatenated
spectral values. -/
def shortname (ml : Measurement_List) : String :=
  match ml.metadata.notes with
  | none => hex8 (xxh32 (msdBytes ml.measurements) 0)
  | some s => if s = "" then hex8 (xxh32 (msdBytes ml.measurements) 0) else s

/-- Source `Measurement_List.__eq__`: `np.all` over elementwise comparison of
test colors, order and measurements, plus dataclass equality of the
metadata. -/
def mlEq (a b : Measurement_List) : Bool :=
  a.test_colors == b.test_colors && a.order == b.order &&
  (a.measurements.length == b.measurements.length &&
    (a.measurements.zip b.measurements).all fun p => spdMeasRecEq p.1 p.2) &&
  a.metadata == b.metadata

/- ## Protobuf container messages

Modelled from the spec: the protobuf schema file
(`specio/serialization/protobuf/measurements.proto` and `common.proto`)
is not among the sources; the message shapes below follow the spec's
container schema — ordered measurement records, optional scalar metadata
strings, an ordered integer list "order", and test-color records holding
either an integer vector or a float vector — together with proto3 field
semantics visible at the call sites: an unset scalar string reads back
as `""`, an unset repeated field as the empty list, and scalar numeric
fields are carried verbatim. -/

/-- Modelled from the spec: `Measurement_List.TestColor` protobuf
message with an integer vector `c` and a float vector `f`. -/
structure PbTestColor where
  c : List ℤ
  f : List ℚ
  deriving DecidableEq, Repr

/-- Modelled from the spec: the `SPD_Measurement` protobuf message with
the embedded spectral distribution (current `values` plus legacy
`values_old`), exposure, derived fields, timestamp string and source id. -/
structure PbSPDMeasurement where
  shape_start : ℚ
  shape_end : ℚ
  shape_step : ℚ
  values : List ℕ
  values_old : List ℕ
  name : String
  exposure : ℚ
  X : ℚ
  Y : ℚ
  Z : ℚ
  x : ℚ
  y : ℚ
  cct : ℚ
  duv : ℚ
  dominant_wl : ℚ
  purity : ℚ
  power : ℚ
  timestr : String
  spectrometer_id : String
  deriving DecidableEq, Repr

/-- Modelled from the spec: the `Measurement_List` protobuf message. -/
structure PbMeasurementList where
  spd_measurements : List PbSPDMeasurement
  notes : String
  author : String
  location : String
  software : String
  order : List ℤ
  test_colors : List PbTestColor
  deriving DecidableEq, Repr

/-- Source `spd_measurement_to_proto`: store shape, current values, name,
exposure, every derived field, the ISO timestamp and the source id. -/
def spd_measurement_to_proto (m : SPDMeasurementRec) : PbSPDMeasurement :=
  ⟨m.shape.start, m.shape.end_, m.shape.step, m.values, [], m.name,
   m.exposure, m.XYZ.1, m.XYZ.2.1, m.XYZ.2.2, m.xy.1, m.xy.2, m.cct,
   m.duv, m.dominant_wl, m.purity, m.power, m.time, m.spectrometer_id⟩

/-- Source `spd_measurement_from_bytes` with the default `recompute=False`:
values fall back to the legacy field when the current field is empty,
every derived field is restored verbatim from the buffer, and the
reconstructed `SpectralDistribution` gets a fresh default name (the
stored name is not restored; measurement equality ignores it). -/
def spd_measurement_from_bytes (b : PbSPDMeasurement) : SPDMeasurementRec :=
  ⟨⟨b.shape_start, b.shape_end, b.shape_step⟩,
   if b.values.length > 0 then b.values else b.values_old,
   "", b.exposure, (b.X, b.Y, b.Z), (b.x, b.y), b.cct, b.duv,
   b.dominant_wl, b.purity, b.power, b.timestr, b.spectrometer_id⟩

/-- The integer-encoding test for the test colors:
`np.ptp(testColors) > 1 and np.all(np.modf(testColors)[0] < 1e-8)`. -/
def intEncodingCond (tcs : List (List ℚ)) : Bool :=
  decide (ptpQ tcs.flatten > 1) &&
  tcs.flatten.all fun v => decide (pyModfFrac v < 1 / 100000000)

/-- Source `measurement_list_to_buffer`: metadata strings are set only when
truthy (a falsy field keeps the proto default `""`), the order is
copied, and the test colors are written to the integer field `c` (via
`int(value)`) when the integer-encoding test holds, otherwise to the
float field `f`.  `np.ptp` raises `ValueError` on an empty test-color
array. -/
def measurement_list_to_buffer (ml : Measurement_List) :
    Except PyErr PbMeasurementList :=
  if ml.test_colors.flatten = [] then
    .error (.valueError "zero-size array to reduction operation")
  else
    .ok ⟨ml.measurements.map spd_measurement_to_proto,
      if pyTruthyStr ml.metadata.notes then ml.metadata.notes.getD "" else "",
      if pyTruthyStr ml.metadata.author then ml.metadata.author.getD "" else "",
      if pyTruthyStr ml.metadata.location then ml.metadata.location.getD "" else "",
      if pyTruthyStr ml.metadata.software then ml.metadata.software.getD "" else "",
      ml.order,
      if intEncodingCond ml.test_colors then
        ml.test_colors.map fun color => ⟨color.map pyTrunc, []⟩
      else
        ml.test_colors.map fun color => ⟨[], color⟩⟩

/-- The in-memory batch reconstructed by `load_csmf_file` from a parsed
buffer: measurements are deserialized without recomputation, each test
color uses the float vector unless it is empty, and the metadata is
rebuilt from the four proto strings (so every field is a string, never
`None`). -/
def buffer_to_measurement_list (pbuf : PbMeasurementList) : Measurement_List :=
  ⟨pbuf.test_colors.map fun color =>
      if color.f.length = 0 then color.c.map (fun i : ℤ => (i : ℚ)) else color.f,
   pbuf.order,
   pbuf.spd_measurements.map spd_measurement_from_bytes,
   ⟨some pbuf.notes, some pbuf.author, some pbuf.location, some pbuf.software⟩⟩

/-- Source `load_csmf_file(save_csmf_file(file, ml))`: the file layer writes
`buffer.SerializeToString()` to `<file>.csmf` and reads the same bytes
back, and protobuf parsing inverts serialization, so the composition is
buffer construction followed by batch reconstruction. -/
def csmfRoundTrip (ml : Measurement_List) : Except PyErr Measurement_List :=
  (measurement_list_to_buffer ml).map buffer_to_measurement_list

/- ## Measurement model (`specio/common/spectrometers.py`,
`specio/common/colorimeters.py`, `specio/common/_measurements_shared.py`)

Derived-quantity formulas live in the external colour-science package;
the spec treats them as opaque pure functions, so the embedding passes
them in as a bundle of functions over exact rationals.  `datetime.now()`
is an external clock read, passed in as an explicit `now` value. -/

/-- A spectral power distribution: a uniform wavelength domain and the
sample values, as rationals. -/
structure SPDQ where
  shape : SpectralShapeRec
  values : List ℚ
  deriving DecidableEq, Repr

/-- The colour-science collaborator functions consumed by the
measurement model (§6 of the spec): opaque pure numeric maps. -/
structure ColourLib where
  sd_to_XYZ : SPDQ → String → ℚ × ℚ × ℚ
  XYZ_to_xy : ℚ × ℚ × ℚ → ℚ × ℚ
  xy_to_UCS_uv : ℚ × ℚ → ℚ × ℚ
  uv_to_CCT : ℚ × ℚ → ℚ × ℚ
  dominant_wavelength : ℚ × ℚ → ℚ × ℚ → ℚ
  colorimetric_purity : ℚ × ℚ → ℚ × ℚ → ℚ
  XYZ_to_CCT_Ohno2013 : List ℚ → ℚ × ℚ

/-- Source `RawSPDMeasurement`: bare spectro acquisition data. -/
structure RawSPDMeasurement where
  spd : SPDQ
  exposure : ℚ
  spectrometer_id : String
  anc_data : Option String
  deriving DecidableEq, Repr

/-- The in-memory `SPDMeasurement` with its computed fields, rationals
throughout and the construction clock value as `time`. -/
structure SPDMeasurementQ where
  spd : SPDQ
  exposure : ℚ
  spectrometer_id : String
  anc_data : Option String
  XYZ : ℚ × ℚ × ℚ
  xy : ℚ × ℚ
  cct : ℚ
  duv : ℚ
  dominant_wl : ℚ
  purity : ℚ
  power : ℚ
  time : ℤ
  deriving DecidableEq, Repr

/-- Source `SPDMeasurement.__init__` (with `no_compute=False`): pick the
tristimulus weighting method from the domain interval, derive XYZ, xy,
CCT/duv, dominant wavelength and purity through colour-science, sum the
sample values into `power`, and record `datetime.now()` as `time`. -/
def SPDMeasurement_init (L : ColourLib) (now : ℤ) (spd : SPDQ)
    (exposure : ℚ) (spectrometer_id : String) (ancillary : Option String) :
    SPDMeasurementQ :=
  let method := if spd.shape.step ∈ [(1 : ℚ), 5, 10, 20] then "ASTM E308" else "Integration"
  let XYZ := L.sd_to_XYZ spd method
  let xy := L.XYZ_to_xy XYZ
  let cctduv := L.uv_to_CCT (L.xy_to_UCS_uv xy)
  ⟨spd, exposure, spectrometer_id, ancillary, XYZ, xy, cctduv.1, cctduv.2,
   L.dominant_wavelength xy (1/3, 1/3), L.colorimetric_purity xy (1/3, 1/3),
   spd.values.sum, now⟩

/-- Source `SPDMeasurement.FromRaw`. -/
def SPDMeasurement_FromRaw (L : ColourLib) (now : ℤ) (raw : RawSPDMeasurement) :
    SPDMeasurementQ :=
  SPDMeasurement_init L now raw.spd raw.exposure raw.spectrometer_id raw.anc_data

/-- Source `SPDMeasurement.__eq__`: all of "spd", "exposure",
"spectrometer_id", "XYZ", "xy", "dominant_wl", "purity", "power",
"time", "cct", "duv" equal (the ancillary data is not compared). -/
def SPDMeasurement_eq (a b : SPDMeasurementQ) : Bool :=
  a.spd == b.spd && a.exposure == b.exposure &&
  a.spectrometer_id == b.spectrometer_id && a.XYZ == b.XYZ &&
  a.xy == b.xy && a.dominant_wl == b.dominant_wl &&
  a.purity == b.purity && a.power == b.power && a.time == b.time &&
  a.cct == b.cct && a.duv == b.duv

/-- Source `SpecRadiometer.measure(repetitions)`.  The guard
`if repetitions < 1:` merely constructs
`ArgumentError("Repetitions must be greater than 1")` without raising
it, so execution falls through: `range(repetitions)` yields no
acquisitions, the numpy mean of the empty list only warns, and the
subsequent `_rm[0]` raises `IndexError`.  For one acquisition the raw
measurement is wrapped directly; for several, sample values and exposure
are averaged, the first acquisition's id is kept, and the averaged raw
data is enriched like a single acquisition. -/
def SpecRadiometer_measure (L : ColourLib) (dev : ℕ → RawSPDMeasurement)
    (now : ℤ) (repetitions : ℤ) : Except PyErr SPDMeasurementQ :=
  match (List.range repetitions.toNat).map dev with
  | [] => .error .indexError
  | [r] => .ok (SPDMeasurement_FromRaw L now r)
  | r0 :: r1 :: rest =>
      let rm := r0 :: r1 :: rest
      let spd_values := meanAxis0 (rm.map (·.spd.values))
      let spd : SPDQ := ⟨r0.spd.shape, spd_values⟩
      let exposure := meanQ (rm.map (·.exposure))
      .ok (SPDMeasurement_FromRaw L now ⟨spd, exposure, r0.spectrometer_id, none⟩)

/-- Source `validate_repetitions`: raises `MeasurementError` when
`repetitions < 1`. -/
def validate_repetitions (repetitions : ℤ) : Except PyErr Unit :=
  if repetitions < 1 then
    .error (.measurementError "Repetitions must be greater than 1")
  else .ok ()

/-- Source `RawColorimeterMeasurement`: bare tristimulus acquisition data. -/
structure RawColorimeterMeasurement where
  XYZ : List ℚ
  exposure : ℚ
  device_id : String
  deriving DecidableEq, Repr

/-- The in-memory `ColorimeterMeasurement` with its computed fields. -/
structure ColorimeterMeasurementQ where
  XYZ : List ℚ
  exposure : ℚ
  device_id : String
  cct : ℚ
  duv : ℚ
  xy : ℚ × ℚ
  dominant_wl : ℚ
  purity : ℚ
  time : ℤ
  deriving DecidableEq, Repr

/-- Python `XYZ.size != (3,)`: an `int` compared against a tuple with
`!=` is always `True`, whatever the size. -/
def pyIntNeTupleThree (_size : ℕ) : Bool :=
  true

/-- Source `ColorimeterMeasurement.__init__` (with `no_compute=False`).  The
size guard evaluates `XYZ.size != (3,)` — always `True` — and then
merely constructs `RuntimeError("XYZ must be size (3,)")` without
raising it, so construction always succeeds for any XYZ length, and the
derived fields are computed through colour-science. -/
def ColorimeterMeasurement_init (L : ColourLib) (now : ℤ) (XYZ : List ℚ)
    (exposure : ℚ) (device_id : String) : Except PyErr ColorimeterMeasurementQ :=
  let _sizeCheck := pyIntNeTupleThree XYZ.length
  let _unraisedRuntimeError := "XYZ must be size (3,)"
  let cctduv := L.XYZ_to_CCT_Ohno2013 XYZ
  let xy := L.XYZ_to_xy (XYZ.getD 0 0, XYZ.getD 1 0, XYZ.getD 2 0)
  .ok ⟨XYZ, exposure, device_id, cctduv.1, cctduv.2, xy,
    L.dominant_wavelength xy (1/3, 1/3), L.colorimetric_purity xy (1/3, 1/3), now⟩

/-- Source `ColorimeterMeasurement.FromRaw`. -/
def ColorimeterMeasurement_FromRaw (L : ColourLib) (now : ℤ)
    (raw : RawColorimeterMeasurement) : Except PyErr ColorimeterMeasurementQ :=
  ColorimeterMeasurement_init L now raw.XYZ raw.exposure raw.device_id

/-- Source `Colorimeter.measure(repetitions)`: validates the repetition count
first (raising `MeasurementError` for `repetitions < 1`, before any
acquisition), then acquires and combines exactly as the
spectroradiometer does, averaging XYZ componentwise. -/
def Colorimeter_measure (L : ColourLib) (dev : ℕ → RawColorimeterMeasurement)
    (now : ℤ) (repetitions : ℤ) : Except PyErr ColorimeterMeasurementQ := do
  _ ← validate_repetitions repetitions
  match (List.range repetitions.toNat).map dev with
  | [] => .error .indexError
  | [r] => ColorimeterMeasurement_FromRaw L now r
  | r0 :: r1 :: rest =>
      let rm := r0 :: r1 :: rest
      let XYZ := meanAxis0 (rm.map (·.XYZ))
      let exposure := meanQ (rm.map (·.exposure))
      ColorimeterMeasurement_FromRaw L now ⟨XYZ, exposure, r0.device_id⟩

/- ## CR serial protocol client
(`specio/_device_implementations/colorimetry_research/_common.py`)

Response lines are embedded as lists of characters (the wire format is
ASCII), and the serial port as the list of complete lines currently
buffered from the device.  `readline` pops the next buffered line, or
returns the empty line when the buffer is empty (read timeout).
`in_waiting` is nonzero exactly when further lines are buffered. -/

/-- The serial-port read state: the lines buffered from the device, in
arrival order, each as returned by `readline` (terminator included in
the real bytes; lines are opaque here). -/
structure PortState where
  buffered : List (List Char)
  deriving DecidableEq, Repr

/-- Source `self._port.in_waiting`: nonzero iff data is buffered. -/
def in_waiting (p : PortState) : Bool :=
  p.buffered ≠ []

/-- Source `self._port.readline()`: the next buffered line, or the empty line
on timeout. -/
def readlinePort (p : PortState) : List Char × PortState :=
  match p.buffered with
  | [] => ([], ⟨[]⟩)
  | l :: rest => (l, ⟨rest⟩)

/-- Source `n` consecutive `readline()` calls. -/
def readLines : ℕ → PortState → List (List Char) × PortState
  | 0, p => ([], p)
  | n + 1, p =>
      let r := readlinePort p
      let rs := readLines n r.2
      (r.1 :: rs.1, rs.2)

/-- Source `bytes.strip()`: drop ASCII whitespace from both ends. -/
def stripWS (l : List Char) : List Char :=
  ((l.dropWhile Char.isWhitespace).reverse.dropWhile Char.isWhitespace).reverse

/-- Source `bytes.split(b":")`: split at every colon, keeping empty pieces. -/
def splitColon : List Char → List (List Char)
  | [] => [[]]
  | a :: rest =>
      match splitColon rest with
      | [] => [[]]
      | g :: gs => if a = ':' then [] :: g :: gs else (a :: g) :: gs

/-- Source `str.isnumeric()` restricted to the ASCII wire format: nonempty and
all decimal digits (Python also accepts other Unicode numerics, which
cannot occur in the device's ASCII responses). -/
def pyIsNumeric (l : List Char) : Bool :=
  !l.isEmpty && l.all Char.isDigit

/-- Decimal value of a digit string. -/
def charsToNat (l : List Char) : ℕ :=
  l.foldl (fun acc c => 10 * acc + (c.toNat - 48)) 0

/-- Source `int(...)` on a wire-format token: an optional minus sign followed
by at least one digit (Python also strips whitespace and accepts `+`
and underscores, which the device never sends). -/
def charsToInt : List Char → Option ℤ
  | [] => none
  | '-' :: rest =>
      if !rest.isEmpty && rest.all Char.isDigit then some (-(charsToNat rest : ℤ))
      else none
  | l => if l.all Char.isDigit then some (charsToNat l : ℤ) else none

/-- Source `ResponseType`: the status token of a response line. -/
inductive ResponseType where
  | OK
  | ERROR
  deriving DecidableEq, Repr

/-- Source `ResponseType(response[0])`: `b"OK"` or `b"ER"`, anything else is a
`ValueError`. -/
def ResponseType_ofChars (s : List Char) : Option ResponseType :=
  if s = "OK".toList then some .OK
  else if s = "ER".toList then some .ERROR
  else none

/-- Source `ResponseCode`: the device error-code table.  Several codes share
one member (the multi-value entries of the declaration), and every
unknown code normalizes to `RESERVED` via `_missing_`.  (As a side
note, the newest revision declares this table over the standard-library
`Enum` with tuple values, which the stdlib rejects at class creation;
the table itself along with `_missing_` is unambiguous and identical to
the working `MultiValueEnum` revisions of the same file, which this
embedding follows.) -/
inductive ResponseCode where
  | OK
  | INVALID_COMMAND
  | TOO_DARK
  | CANT_SYNC_CONST
  | CANT_SYNC_AUTO
  | SYNC_TOO_LOW
  | INVALID_SYNC_MODE
  | INVALID_SYNC_PERIOD
  | CANT_SYNC_TO_LIGHT
  | LIGHT_INTENSITY_FLUCTUATION
  | LIGHT_INTENSITY_TOO_LOW
  | LIGHT_INTENSITY_UNMEASURABLE
  | LIGHT_INTENSITY_TOO_HIGH
  | HARDWARE_MALFUNCTION
  | MATRIX_VERSION_MISMATCH
  | INVALID_MATRIX_INDEX
  | NO_CIE_TABLES
  | NO_CMF_TABLES
  | NO_MATRIX_FOR_ID
  | DUPLICATE_FILTER_SELECTION
  | NO_ACCESSORY_FOR_INDEX
  | NO_FILTER_FOR_INDEX
  | INDEX_NOT_VALID_ACCESSORY
  | INDEX_NOT_VALID_FILTER
  | INVALID_RANGE_MODE
  | INVALID_RANGE_INDEX
  | INVALID_EXPOSURE_MULTIPLIER
  | INDEX_DOESNT_SELECT_APERTURE
  | INVALID_EXPOSURE_MODE
  | INVALID_EXPOSURE_VALUE
  | INVALID_SYNC_FREQUENCY
  | INVALID_MATRIX_MODE
  | INVALID_MATRIX_ID
  | INVALID_MATRIX_NAME
  | ERRROR_SAVING_MATRIX_FLASH
  | INVALID_USER_CALIBRATION_MODE
  | RESERVED
  deriving DecidableEq, Repr

/-- Source `ResponseCode(code)`: look up the code in the declared table,
falling back to `RESERVED` for any unknown value. -/
def ResponseCode.ofInt (code : ℤ) : ResponseCode :=
  if code = 0 then .OK
  else if code = -500 then .INVALID_COMMAND
  else if code = 100 then .TOO_DARK
  else if code = 101 then .CANT_SYNC_CONST
  else if code = 102 then .CANT_SYNC_AUTO
  else if code = 103 then .SYNC_TOO_LOW
  else if code = -300 ∨ code = -521 then .INVALID_SYNC_MODE
  else if code = -301 then .INVALID_SYNC_PERIOD
  else if code = -302 then .CANT_SYNC_TO_LIGHT
  else if code = -303 then .LIGHT_INTENSITY_FLUCTUATION
  else if code = -304 then .LIGHT_INTENSITY_TOO_LOW
  else if code = -305 then .LIGHT_INTENSITY_UNMEASURABLE
  else if code = -306 then .LIGHT_INTENSITY_TOO_HIGH
  else if code = -331 then .HARDWARE_MALFUNCTION
  else if code = -332 then .MATRIX_VERSION_MISMATCH
  else if code = -333 then .INVALID_MATRIX_INDEX
  else if code = -334 then .NO_CIE_TABLES
  else if code = -335 then .NO_CMF_TABLES
  else if code = -336 then .NO_MATRIX_FOR_ID
  else if code = -505 then .DUPLICATE_FILTER_SELECTION
  else if code = -506 then .NO_ACCESSORY_FOR_INDEX
  else if code = -507 then .NO_FILTER_FOR_INDEX
  else if code = -508 then .INDEX_NOT_VALID_ACCESSORY
  else if code = -509 ∨ code = -510 ∨ code = -511 then .INDEX_NOT_VALID_FILTER
  else if code = -512 then .INVALID_RANGE_MODE
  else if code = -513 then .INVALID_RANGE_INDEX
  else if code = -514 then .INVALID_EXPOSURE_MULTIPLIER
  else if code = -515 then .INDEX_DOESNT_SELECT_APERTURE
  else if code = -518 then .INVALID_EXPOSURE_MODE
  else if code = -519 then .INVALID_EXPOSURE_VALUE
  else if code = -522 then .INVALID_SYNC_FREQUENCY
  else if code = -552 then .INVALID_MATRIX_MODE
  else if code = -553 then .INVALID_MATRIX_ID
  else if code = -555 then .INVALID_MATRIX_NAME
  else if code = -559 then .ERRROR_SAVING_MATRIX_FLASH
  else if code = -560 then .INVALID_USER_CALIBRATION_MODE
  else .RESERVED

/-- Source `CommandResponse`: the parsed response of one protocol exchange. -/
structure CommandResponse where
  type : ResponseType
  code : ResponseCode
  description : List Char
  arguments : List (List Char)
  deriving DecidableEq, Repr

/-- Exceptions of the protocol client; `commandError` is the typed
`CommandError(response, response.arguments[0])`. -/
inductive CRErr where
  | indexError
  | valueError (msg : String)
  | commandError (response : CommandResponse) (arg : List Char)
  deriving DecidableEq, Repr

/-- Source `CRDeviceBase._parse_response`: strip and colon-split the line
(`response[3]` raises `IndexError` when there are fewer than four
fields); when field 3 is numeric, positive, and data is waiting on the
port, read that many further lines verbatim as the arguments, otherwise
the arguments are the decoded fields from index 3 on; then assemble the
`CommandResponse` from fields 0-2. -/
def parse_response (data : List Char) (port : PortState) :
    Except CRErr (CommandResponse × PortState) :=
  let response := splitColon (stripWS data)
  match response.get? 3 with
  | none => .error .indexError
  | some f3 =>
      let argsPort :=
        if pyIsNumeric f3 && decide (0 < charsToNat f3) && in_waiting port then
          readLines (charsToNat f3) port
        else (response.drop 3, port)
      match ResponseType_ofChars (response.getD 0 []) with
      | none => .error (.valueError "is not a valid ResponseType")
      | some ty =>
          match charsToInt (response.getD 1 []) with
          | none => .error (.valueError "invalid literal for int")
          | some code =>
              .ok (⟨ty, ResponseCode.ofInt code, response.getD 2 [], argsPort.1⟩,
                argsPort.2)

/-- Source `CRDeviceBase._write_cmd`: pacing, buffer flush and the write are
transport effects; after them `reply` is the primary line read back and
`port` holds the follow-up lines the device has buffered (stale data was
flushed before the write).  The reply is parsed, and an ERROR-status
response raises `CommandError(response, response.arguments[0])`;
otherwise the parsed response is returned. -/
def write_cmd (_command : List Char) (reply : List Char) (port : PortState) :
    Except CRErr (CommandResponse × PortState) :=
  match parse_response reply port with
  | .error e => .error e
  | .ok rp =>
      if rp.1.type = .ERROR then
        match rp.1.arguments.get? 0 with
        | none => .error .indexError
        | some a => .error (.commandError rp.1 a)
      else .ok rp

/-- The `average_samples` setter's clamping:
`num = num if num > 0 else 1` then `num = num if num < 50 else 50`; the
result is the value formatted into the `SM ExposureX` command. -/
def effective_average_samples (num : ℤ) : ℤ :=
  let n1 := if num > 0 then num else 1
  if n1 < 50 then n1 else 50

/- ## CR acquisition helpers
(`.../_cr_spectrometers.py`, `.../_cr_colorimeters.py`) -/

/-- The text matched by `re.match(r"\d*\.?\d*", s)`: greedy leading
digits, one optional dot, greedy digits.  Every schema of this pattern
can match the empty string, so the match never fails — `re.match` always
returns a (possibly empty-width, always truthy) match object. -/
def leadingNumericMatch (s : List Char) : List Char :=
  let d1 := s.takeWhile Char.isDigit
  match s.drop d1.length with
  | '.' :: rest => d1 ++ '.' :: rest.takeWhile Char.isDigit
  | _ => d1

/-- Source `float(s)` on a string drawn from the language of
`\d*\.?\d*`: the empty string and a bare `"."` raise `ValueError`, any
other digits-dot-digits string denotes the evident decimal. -/
def pyFloatOfChars (s : List Char) : Except PyErr ℚ :=
  if s.isEmpty || s = ['.'] then
    .error (.valueError "could not convert string to float")
  else
    let ip := s.takeWhile Char.isDigit
    match s.drop ip.length with
    | '.' :: fp => .ok ((charsToNat ip : ℚ) + (charsToNat fp : ℚ) / 10 ^ fp.length)
    | _ => .ok (charsToNat ip)

/-- The exposure parsing of `_raw_measure`:
`exposure = float(exMatch.group()) / 1000 if exMatch else -1`.  Because
the regex always matches, the `-1` branch is unreachable; a response
with no leading numeric substring reaches `float("")`, which raises
`ValueError`. -/
def parse_exposure (resp : List Char) : Except PyErr ℚ :=
  match pyFloatOfChars (leadingNumericMatch resp) with
  | .error e => .error e
  | .ok q => .ok (q / 1000)

/-- The spectral-domain selection of `CRSpectrometer._raw_measure` from
the parsed `RM Spectrum` metadata fields `(args[0], args[1], args[2])`
= (start, end, step): the returned domain is used whenever
`float(args[1]) != 0` — the test is on the domain END — else the
fallback is `SpectralShape(380, 780, 1)` for model "CR-300" and
`SpectralShape(380, 780, 4)` for "CR-250"; for any other model the local
`shape` is never bound and its first use raises `NameError` (`none`). -/
def spectrum_shape_selection (model : String) (a0 a1 a2 : ℚ) :
    Option SpectralShapeRec :=
  if a1 ≠ 0 then some ⟨a0, a1, a2⟩
  else if model = "CR-300" then some ⟨380, 780, 1⟩
  else if model = "CR-250" then some ⟨380, 780, 4⟩
  else none

/-- Source `len(shape.wavelengths)`: the length of
`np.arange(start, end + interval, interval)` for a positive interval. -/
def wavelengthCount (sh : SpectralShapeRec) : ℕ :=
  if 0 < sh.step then (⌈(sh.end_ + sh.step - sh.start) / sh.step⌉).toNat else 0

/-- Source `data = [self._port.readline() for _ in range(len(shape.wavelengths))]`:
the sample lines read after the domain is chosen. -/
def read_sample_lines (sh : SpectralShapeRec) (port : PortState) :
    List (List Char) × PortState :=
  readLines (wavelengthCount sh) port

/-- Decidable equality of embedded fallible results. -/
instance {ε α : Type} [DecidableEq ε] [DecidableEq α] :
    DecidableEq (Except ε α) := fun x y =>
  match x, y with
  | .error e, .error f =>
      if h : e = f then isTrue (by rw [h]) else isFalse (by simp [h])
  | .ok a, .ok b =>
      if h : a = b then isTrue (by rw [h]) else isFalse (by simp [h])
  | .error _, .ok _ => isFalse (by simp)
  | .ok _, .error _ => isFalse (by simp)

/- ## Concrete instances used by witnesses and counterexamples -/

/-- A concrete colour-science bundle for witness evaluation (the
collaborator functions are opaque to the model, so any pure instance
exercises the embedded control flow). -/
def dummyLib : ColourLib :=
  ⟨fun _ _ => (0, 0, 0), fun _ => (0, 0), fun p => p, fun p => p,
   fun _ _ => 0, fun _ _ => 0, fun _ => (0, 0)⟩

/-- A concrete constant raw spectral acquisition. -/
def dummyRawSPD : RawSPDMeasurement :=
  ⟨⟨⟨380, 780, 1⟩, [1, 1]⟩, 1, "vspr", none⟩

/-- A concrete constant raw tristimulus acquisition. -/
def dummyRawCol : RawColorimeterMeasurement :=
  ⟨[1, 1, 1], 1, "vcol"⟩

/-- A batch whose metadata is all-default (`MeasurementList_Notes()`). -/
def mlDefaultMeta : Measurement_List :=
  ⟨[[0, 2]], [0], [], defaultNotes⟩

/-- A single-measurement batch with empty notes and a single spectral
sample whose float64 bit pattern is `v`. -/
def hashBatch (v : ℕ) : Measurement_List :=
  ⟨[[0, 2]], [0],
   [⟨⟨380, 780, 1⟩, [v], "", 0, (0, 0, 0), (0, 0), 0, 0, 0, 0, 0, "t", "id"⟩],
   defaultNotes⟩

/-- A fully-populated batch with every metadata field set. -/
def mlWitness : Measurement_List :=
  ⟨[[0, 2]], [0],
   [⟨⟨380, 780, 1⟩, [4607182418800017408], "spd 1", 1, (1, 2, 3), (1, 2),
     5000, 0, 550, 1, 401, "2024-01-01T00:00:00+00:00", "CR-300 - 0001"⟩],
   ⟨some "Random Test Measurements", some "tjdcs", some "virtual",
    some "specio-tests"⟩⟩

/- ## Helper lemmas -/

theorem readLines_length (n : ℕ) (p : PortState) :
    (readLines n p).1.length = n := by
  induction n generalizing p with
  | zero => rfl
  | succ m ih => simp [readLines, ih]

theorem readLines_of_le (n : ℕ) (p : PortState) (h : n ≤ p.buffered.length) :
    readLines n p = (p.buffered.take n, ⟨p.buffered.drop n⟩) := by
  induction n generalizing p with
  | zero => simp [readLines]
  | succ m ih =>
      obtain ⟨ls⟩ := p
      match ls with
      | [] => simp at h
      | l :: rest =>
          simp only [readLines, readlinePort, ih ⟨rest⟩ (by simpa using h)]
          simp

theorem avalanche32_lt (a : ℕ) : avalanche32 a < M32 :=
  Nat.mod_lt _ (by norm_num [M32])

theorem xxh32_lt (bytes : List ℕ) (seed : ℕ) : xxh32 bytes seed < M32 := by
  simp only [xxh32]
  split
  · exact avalanche32_lt _
  · exact avalanche32_lt _

theorem zipWith_add_map_mul (c : ℚ) (vs : List ℚ) :
    vs.zipWith (· + ·) (vs.map fun v => c * v) = vs.map fun v => (c + 1) * v := by
  induction vs with
  | nil => rfl
  | cons v t ih => simp only [List.map_cons, List.zipWith_cons_cons, ih]; ring_nf

theorem sumRows_replicate (n : ℕ) (vs : List ℚ) (hn : n ≠ 0) :
    sumRows (List.replicate n vs) = vs.map fun v => (n : ℚ) * v := by
  induction n with
  | zero => exact absurd rfl hn
  | succ m ih =>
      match m with
      | 0 => simp [sumRows]
      | m + 1 =>
          rw [List.replicate_succ]
          have h1 : sumRows (vs :: List.replicate (m + 1) vs) =
              vs.zipWith (· + ·) (sumRows (List.replicate (m + 1) vs)) := by
            rw [List.replicate_succ]
            rfl
          rw [h1, ih (by omega), zipWith_add_map_mul]
          refine List.map_congr_left fun v _ => ?_
          push_cast
          ring

theorem meanAxis0_replicate (n : ℕ) (vs : List ℚ) (hn : n ≠ 0) :
    meanAxis0 (List.replicate n vs) = vs := by
  have hc : ((n : ℚ)) ≠ 0 := Nat.cast_ne_zero.mpr hn
  unfold meanAxis0
  rw [sumRows_replicate n vs hn, List.length_replicate, List.map_map]
  have : ((fun v => v / (n : ℚ)) ∘ fun v => (n : ℚ) * v) = id := by
    funext v
    simp [mul_div_cancel_left₀ v hc]
  rw [this, List.map_id]

theorem meanQ_replicate (n : ℕ) (e : ℚ) (hn : n ≠ 0) :
    meanQ (List.replicate n e) = e := by
  have hc : ((n : ℚ)) ≠ 0 := Nat.cast_ne_zero.mpr hn
  simp [meanQ, List.sum_replicate, nsmul_eq_mul, mul_div_assoc,
    mul_div_cancel_left₀ _ hc, div_self hc]

theorem range_map_const {α : Type} (n : ℕ) (r : α) :
    (List.range n).map (fun _ => r) = List.replicate n r := by
  induction n with
  | zero => rfl
  | succ m ih => rw [List.range_succ, List.map_append, ih, List.replicate_succ']; rfl

theorem spdMeasRecEq_refl (m : SPDMeasurementRec) : spdMeasRecEq m m = true := by
  simp [spdMeasRecEq]

theorem SPDMeasurement_eq_refl (m : SPDMeasurementQ) : SPDMeasurement_eq m m = true := by
  simp [SPDMeasurement_eq]

theorem metadata_field_roundtrip (o : Option String) (h : o ≠ none) :
    some (if pyTruthyStr o then o.getD "" else "") = o := by
  match o with
  | none => exact absurd rfl h
  | some s => by_cases hs : s = "" <;> simp [pyTruthyStr, hs]

theorem spd_roundtrip_eq (m : SPDMeasurementRec) :
    spdMeasRecEq (spd_measurement_from_bytes (spd_measurement_to_proto m)) m = true := by
  unfold spd_measurement_from_bytes spd_measurement_to_proto
  match hv : m.values with
  | [] => simp [spdMeasRecEq, hv]
  | v :: rest => simp [spdMeasRecEq, hv]

/- ## Claim theorems -/

/-- C4: for every requested average-sample count `n`, the effective
value sent to the device lies in `[1, 50]`, with effective 1 for
`n ≤ 0`, effective 50 for `n ≥ 50`, and effective `n` otherwise. -/
theorem C4_average_samples_clamped (n : ℤ) :
    1 ≤ effective_average_samples n ∧ effective_average_samples n ≤ 50 ∧
    (n ≤ 0 → effective_average_samples n = 1) ∧
    (50 ≤ n → effective_average_samples n = 50) ∧
    (0 < n → n < 50 → effective_average_samples n = n) := by
  simp only [effective_average_samples]
  split_ifs <;> omega

/-- C4 witness: the clamping theorem evaluated at -3, 60 and 7. -/
theorem C4_average_samples_clamped_witness :
    effective_average_samples (-3) = 1 ∧ effective_average_samples 60 = 50 ∧
    effective_average_samples 7 = 7 :=
  ⟨(C4_average_samples_clamped (-3)).2.2.1 (by norm_num),
   (C4_average_samples_clamped 60).2.2.2.1 (by norm_num),
   (C4_average_samples_clamped 7).2.2.2.2 (by norm_num) (by norm_num)⟩

/-- C10: constructing a `ColorimeterMeasurement` never raises a
size-validation error for an XYZ vector of any length: the int-vs-tuple
comparison `XYZ.size != (3,)` is constant, the mentioned `RuntimeError`
is constructed but never raised, and the wrong-length vector is stored
as given. -/
theorem C10_size_check_never_raises (L : ColourLib) (now : ℤ) (XYZ : List ℚ)
    (exposure : ℚ) (device_id : String) :
    pyIntNeTupleThree XYZ.length = true ∧
    ∃ m, ColorimeterMeasurement_init L now XYZ exposure device_id = .ok m ∧
      m.XYZ = XYZ :=
  ⟨rfl, _, rfl, rfl⟩

/-- C2: with `repetitions = 0` (any value below 1 behaves alike),
`SpecRadiometer.measure` does not raise the descriptive usage error —
the `ArgumentError` is constructed without `raise` — and instead runs
zero acquisitions and fails with `IndexError` at `_rm[0]`;
`Colorimeter.measure` validates eagerly and raises the
`MeasurementError` usage error before any acquisition. -/
theorem C2_measure_repetitions_bug :
    (∀ L dev now, SpecRadiometer_measure L dev now 0 = .error .indexError) ∧
    (∀ L dev now, Colorimeter_measure L dev now 0 =
      .error (.measurementError "Repetitions must be greater than 1")) ∧
    SpecRadiometer_measure dummyLib (fun _ => dummyRawSPD) 0 (-5) =
      .error .indexError :=
  ⟨fun _ _ _ => rfl, fun _ _ _ => rfl, rfl⟩

/-- C8: the exposure reply is parsed as the leading `\d*\.?\d*`
substring divided into seconds ("100ms" parses to 0.1 s), but the regex
also matches the empty string, so a non-numeric reply does not produce
the -1 sentinel: it reaches `float("")`, which raises `ValueError`. -/
theorem C8_exposure_parse_raises :
    parse_exposure ("No Exposure Available".toList) =
      .error (.valueError "could not convert string to float") ∧
    leadingNumericMatch ("No Exposure Available".toList) = [] ∧
    parse_exposure ("100ms".toList) = .ok (1 / 10) := by
  refine ⟨by decide, by decide, ?_⟩
  have h1 : parse_exposure ("100ms".toList) = .ok ((100 : ℚ) / 1000) := rfl
  rw [h1]
  exact congrArg Except.ok (by norm_num)

/-- C9 counterexample: a spectrum-metadata response with a degenerate
(zero) step but nonzero end, on a CR-300: `_raw_measure` does not fall
back — the guard tests the domain end, not the step — and the kept
domain is not the claimed 300-780nm default. -/
theorem C9_degenerate_step_counterexample :
    spectrum_shape_selection "CR-300" 380 780 0 = some ⟨380, 780, 0⟩ ∧
    (⟨380, 780, 0⟩ : SpectralShapeRec) ≠ ⟨300, 780, 1⟩ := by
  refine ⟨?_, ?_⟩ <;> decide

/-- C9 (amended): when the returned domain END is zero, `_raw_measure`
falls back to 380-780nm at 1nm (CR-300) or 4nm (CR-250) and then reads
exactly as many raw sample lines as the chosen domain implies (401,
resp. 101); a nonzero end keeps the returned domain. -/
theorem C9_domain_fallback_amended (a0 a1 a2 : ℚ) (p : PortState) (ha : a1 ≠ 0) :
    spectrum_shape_selection "CR-300" a0 0 a2 = some ⟨380, 780, 1⟩ ∧
    spectrum_shape_selection "CR-250" a0 0 a2 = some ⟨380, 780, 4⟩ ∧
    wavelengthCount ⟨380, 780, 1⟩ = 401 ∧
    wavelengthCount ⟨380, 780, 4⟩ = 101 ∧
    (read_sample_lines ⟨380, 780, 1⟩ p).1.length = 401 ∧
    (read_sample_lines ⟨380, 780, 4⟩ p).1.length = 101 ∧
    spectrum_shape_selection "CR-300" a0 a1 a2 = some ⟨a0, a1, a2⟩ := by
  have hw1 : wavelengthCount ⟨380, 780, 1⟩ = 401 := by
    simp only [wavelengthCount]
    rw [if_pos (by norm_num)]
    have h : ((780 : ℚ) + 1 - 380) / 1 = 401 := by norm_num
    rw [h]
    norm_num
    decide
  have hw4 : wavelengthCount ⟨380, 780, 4⟩ = 101 := by
    simp only [wavelengthCount]
    rw [if_pos (by norm_num)]
    have h : ((780 : ℚ) + 4 - 380) / 4 = 101 := by norm_num
    rw [h]
    norm_num
    decide
  refine ⟨?_, ?_, hw1, hw4, ?_, ?_, ?_⟩
  · rw [spectrum_shape_selection, if_neg (by norm_num), if_pos rfl]
  · rw [spectrum_shape_selection, if_neg (by norm_num), if_neg (by decide),
      if_pos rfl]
  · rw [read_sample_lines, readLines_length, hw1]
  · rw [read_sample_lines, readLines_length, hw4]
  · simp [spectrum_shape_selection, ha]

/-- C5: for a well-formed ERROR response line with code -305 (status
field `ER`, code field `-305`, a description field, and the literal
error description in the argument field), `_write_cmd` raises the typed
`CommandError` carrying the full parsed `CommandResponse` — whose code
parses to -305, the light-unmeasurable member — and the error
description as its first argument; it never returns normally on such a
line. -/
theorem C5_error_propagation (cmdline data f2 f3 : List Char)
    (rest : List (List Char)) (port : PortState)
    (hsplit : splitColon (stripWS data) =
      "ER".toList :: "-305".toList :: f2 :: f3 :: rest)
    (hnum : pyIsNumeric f3 = false) :
    write_cmd cmdline data port =
      .error (.commandError
        ⟨.ERROR, .LIGHT_INTENSITY_UNMEASURABLE, f2, f3 :: rest⟩ f3) ∧
    ResponseCode.ofInt (-305) = .LIGHT_INTENSITY_UNMEASURABLE ∧
    ∀ out, write_cmd cmdline data port ≠ .ok out := by
  have hparse : parse_response data port =
      .ok (⟨.ERROR, .LIGHT_INTENSITY_UNMEASURABLE, f2, f3 :: rest⟩, port) := by
    simp only [parse_response, hsplit]
    simp [hnum, ResponseType_ofChars, charsToInt, charsToNat,
      ResponseCode.ofInt]
  have hmain : write_cmd cmdline data port =
      .error (.commandError
        ⟨.ERROR, .LIGHT_INTENSITY_UNMEASURABLE, f2, f3 :: rest⟩ f3) := by
    simp only [write_cmd, hparse]
    rfl
  refine ⟨hmain, by decide, fun out h => ?_⟩
  rw [hmain] at h
  cases h

/-- C5 witness: the error propagation theorem at a concrete wire line
`ER:-305:RM Spectrum:Light intensity unmeasurable` with an empty port
buffer. -/
theorem C5_error_propagation_witness :
    write_cmd ("RM Spectrum".toList)
      ("ER:-305:RM Spectrum:Light intensity unmeasurable".toList) ⟨[]⟩ =
      .error (.commandError
        ⟨.ERROR, .LIGHT_INTENSITY_UNMEASURABLE, "RM Spectrum".toList,
          ["Light intensity unmeasurable".toList]⟩
        ("Light intensity unmeasurable".toList)) :=
  (C5_error_propagation ("RM Spectrum".toList)
    ("ER:-305:RM Spectrum:Light intensity unmeasurable".toList)
    ("RM Spectrum".toList) ("Light intensity unmeasurable".toList) [] ⟨[]⟩
    (by decide) (by decide)).1

/-- C6: a response whose field 3 is a positive numeric string N is
expanded, when the transport has buffered data, into an argument list of
exactly the N next lines read verbatim from the port (the first N
buffered lines when the buffer holds that many) — not the literal string
N; in every other case the arguments are fields 3 onward, decoded. -/
theorem C6_multiline_expansion (data f0 f1 f2 f3 : List Char)
    (rest : List (List Char)) (port : PortState) (ty : ResponseType) (code : ℤ)
    (hsplit : splitColon (stripWS data) = f0 :: f1 :: f2 :: f3 :: rest)
    (hty : ResponseType_ofChars f0 = some ty)
    (hcode : charsToInt f1 = some code) :
    ((pyIsNumeric f3 && decide (0 < charsToNat f3) && in_waiting port) = true →
      parse_response data port =
        .ok (⟨ty, .ofInt code, f2, (readLines (charsToNat f3) port).1⟩,
          (readLines (charsToNat f3) port).2) ∧
      (readLines (charsToNat f3) port).1.length = charsToNat f3 ∧
      (charsToNat f3 ≤ port.buffered.length →
        (readLines (charsToNat f3) port).1 =
          port.buffered.take (charsToNat f3))) ∧
    ((pyIsNumeric f3 && decide (0 < charsToNat f3) && in_waiting port) = false →
      parse_response data port = .ok (⟨ty, .ofInt code, f2, f3 :: rest⟩, port)) := by
  constructor
  · intro hcond
    refine ⟨?_, readLines_length _ _, fun hle => by rw [readLines_of_le _ _ hle]⟩
    simp only [parse_response, hsplit]
    simp [hcond, hty, hcode]
  · intro hcond
    simp only [parse_response, hsplit]
    simp [hcond, hty, hcode]

/-- C6 witness: the multi-line expansion theorem at the concrete
response `OK:0:RS Filter:3` with three buffered lines, and at the same
response with an empty buffer. -/
theorem C6_multiline_expansion_witness :
    parse_response ("OK:0:RS Filter:3".toList)
      ⟨["10,A\n".toList, "11,B\n".toList, "12,C\n".toList]⟩ =
      .ok (⟨.OK, .OK, "RS Filter".toList,
        ["10,A\n".toList, "11,B\n".toList, "12,C\n".toList]⟩, ⟨[]⟩) ∧
    parse_response ("OK:0:RS Filter:3".toList) ⟨[]⟩ =
      .ok (⟨.OK, .OK, "RS Filter".toList, ["3".toList]⟩, ⟨[]⟩) := by
  constructor
  · have h := ((C6_multiline_expansion ("OK:0:RS Filter:3".toList)
      ("OK".toList) ("0".toList) ("RS Filter".toList) ("3".toList) []
      ⟨["10,A\n".toList, "11,B\n".toList, "12,C\n".toList]⟩ .OK 0
      (by decide) (by decide) (by decide)).1 (by decide))
    rw [h.1, h.2.2 (by decide)]
    rfl
  · exact (C6_multiline_expansion ("OK:0:RS Filter:3".toList)
      ("OK".toList) ("0".toList) ("RS Filter".toList) ("3".toList) []
      ⟨[]⟩ .OK 0 (by decide) (by decide) (by decide)).2 (by decide)

/-- The measurement equality relation returns false whenever the
recorded construction times differ, whatever the other fields. -/
theorem SPDMeasurement_eq_false_of_time (a b : SPDMeasurementQ)
    (h : (a.time == b.time) = false) : SPDMeasurement_eq a b = false := by
  unfold SPDMeasurement_eq
  rw [h]
  simp

/-- C3 counterexample: on a device returning constant raw data,
`measure(repetitions=1)` and `measure(repetitions=2)` run at successive
clock readings produce measurements the measurement equality relation
rejects, because `__eq__` compares the `time` field and each
construction records its own `datetime.now()`. -/
theorem C3_idempotence_counterexample :
    ∃ m1 m2, SpecRadiometer_measure dummyLib (fun _ => dummyRawSPD) 0 1 = .ok m1 ∧
      SpecRadiometer_measure dummyLib (fun _ => dummyRawSPD) 1 2 = .ok m2 ∧
      SPDMeasurement_eq m1 m2 = false := by
  refine ⟨_, _, rfl, rfl, ?_⟩
  exact SPDMeasurement_eq_false_of_time _ _ rfl

/-- C3 (amended): with the construction clock held fixed,
`measure(repetitions=1)` on constant raw data equals
`measure(repetitions=k)` for every k ≥ 1 under the measurement equality
relation; and for every k ≥ 2 the combination is the arithmetic mean of
the sample values and exposures with the first acquisition's source id,
enriched exactly like a single acquisition. -/
theorem C3_averaging_amended (L : ColourLib) (raw : RawSPDMeasurement) (now : ℤ)
    (k : ℤ) (hk : 1 ≤ k) :
    (∃ m1 mk, SpecRadiometer_measure L (fun _ => raw) now 1 = .ok m1 ∧
      SpecRadiometer_measure L (fun _ => raw) now k = .ok mk ∧
      SPDMeasurement_eq m1 mk = true) ∧
    (∀ dev : ℕ → RawSPDMeasurement, ∀ r0 r1 : RawSPDMeasurement,
      ∀ rs : List RawSPDMeasurement,
      (List.range k.toNat).map dev = r0 :: r1 :: rs →
      SpecRadiometer_measure L dev now k = .ok (SPDMeasurement_init L now
        ⟨r0.spd.shape, meanAxis0 ((r0 :: r1 :: rs).map (·.spd.values))⟩
        (meanQ ((r0 :: r1 :: rs).map (·.exposure))) r0.spectrometer_id none)) := by
  constructor
  · have h1 : SpecRadiometer_measure L (fun _ => raw) now 1 =
        .ok (SPDMeasurement_FromRaw L now raw) := rfl
    have hrep : (List.range k.toNat).map (fun _ => raw) =
        List.replicate k.toNat raw := range_map_const _ _
    have hn : 1 ≤ k.toNat := by omega
    match hcase : k.toNat with
    | 0 => omega
    | 1 =>
        refine ⟨_, _, h1, ?_, SPDMeasurement_eq_refl _⟩
        unfold SpecRadiometer_measure
        rw [hcase] at hrep
        rw [hcase, hrep]
        rfl
    | j + 2 =>
        rw [hcase] at hrep
        have hcons : List.replicate (j + 2) raw =
            raw :: raw :: List.replicate j raw := by
          simp [List.replicate_succ]
        have hmk : SpecRadiometer_measure L (fun _ => raw) now k =
            .ok (SPDMeasurement_init L now
              ⟨raw.spd.shape,
                meanAxis0 ((raw :: raw :: List.replicate j raw).map (·.spd.values))⟩
              (meanQ ((raw :: raw :: List.replicate j raw).map (·.exposure)))
              raw.spectrometer_id none) := by
          unfold SpecRadiometer_measure
          rw [hcase, hrep, hcons]
          rfl
        have hvals : (raw :: raw :: List.replicate j raw).map (·.spd.values) =
            List.replicate (j + 2) raw.spd.values := by
          simp [List.replicate_succ]
        have hexps : (raw :: raw :: List.replicate j raw).map (·.exposure) =
            List.replicate (j + 2) raw.exposure := by
          simp [List.replicate_succ]
        rw [hvals, hexps, meanAxis0_replicate _ _ (by omega),
          meanQ_replicate _ _ (by omega)] at hmk
        have heta : (⟨raw.spd.shape, raw.spd.values⟩ : SPDQ) = raw.spd := rfl
        rw [heta] at hmk
        refine ⟨_, _, h1, hmk, ?_⟩
        simp [SPDMeasurement_eq, SPDMeasurement_FromRaw, SPDMeasurement_init]
  · intro dev r0 r1 rs hrm
    unfold SpecRadiometer_measure
    rw [hrm]
    rfl

/-- C3 witness: the amended theorem evaluated with the dummy
colour-science bundle on a constant device at k = 3, plus its
mean-combination clause at the concrete acquisition list of
`repetitions = 2`. -/
theorem C3_averaging_amended_witness :
    (∃ m1 mk,
      SpecRadiometer_measure dummyLib (fun _ => dummyRawSPD) 0 1 = .ok m1 ∧
      SpecRadiometer_measure dummyLib (fun _ => dummyRawSPD) 0 3 = .ok mk ∧
      SPDMeasurement_eq m1 mk = true) ∧
    SpecRadiometer_measure dummyLib (fun _ => dummyRawSPD) 0 2 =
      .ok (SPDMeasurement_init dummyLib 0
        ⟨dummyRawSPD.spd.shape,
          meanAxis0 ([dummyRawSPD, dummyRawSPD].map (·.spd.values))⟩
        (meanQ ([dummyRawSPD, dummyRawSPD].map (·.exposure)))
        dummyRawSPD.spectrometer_id none) :=
  ⟨(C3_averaging_amended dummyLib dummyRawSPD 0 3 (by norm_num)).1,
   (C3_averaging_amended dummyLib dummyRawSPD 0 2 (by norm_num)).2
     (fun _ => dummyRawSPD) dummyRawSPD dummyRawSPD [] (by decide)⟩

/-- The batch equality relation returns false whenever the metadata
comparison fails, whatever the other fields. -/
theorem mlEq_false_of_metadata (a b : Measurement_List)
    (h : (a.metadata == b.metadata) = false) : mlEq a b = false := by
  unfold mlEq
  rw [h, Bool.and_false]

/-- The argument-list part of the roundtrip equality check. -/
theorem zip_all_roundtrip (ms : List SPDMeasurementRec) :
    ((ms.map fun m => spd_measurement_from_bytes (spd_measurement_to_proto m)).zip
      ms).all (fun p => spdMeasRecEq p.1 p.2) = true := by
  induction ms with
  | nil => rfl
  | cons m t ih => simp only [List.map_cons, List.zip_cons_cons, List.all_cons,
      spd_roundtrip_eq m, ih, Bool.and_self]

/-- C1 counterexample: saving and re-loading a batch whose metadata is
the all-default `MeasurementList_Notes()` yields a batch the equality
contract rejects: the unset optional strings come back as `""`, which
dataclass equality distinguishes from `None`. -/
theorem C1_roundtrip_counterexample :
    ∃ ml2, csmfRoundTrip mlDefaultMeta = .ok ml2 ∧
      mlEq ml2 mlDefaultMeta = false := by
  refine ⟨_, rfl, mlEq_false_of_metadata _ _ rfl⟩

/-- C1 (amended): `load(save(B)) == B` holds under the batch equality
contract for every batch whose metadata fields are all strings (possibly
empty, but not `None`), whose test-color array is nonempty (`np.ptp`
raises on an empty array), and whose test colors are exactly integral
whenever the integer encoding is chosen (`int()` truncation is lossless
only then); measurements, order and test-color encoding all round-trip
field-wise. -/
theorem C1_roundtrip_amended (ml : Measurement_List)
    (hne : ml.test_colors.flatten ≠ [])
    (hnotes : ml.metadata.notes ≠ none)
    (hauthor : ml.metadata.author ≠ none)
    (hloc : ml.metadata.location ≠ none)
    (hsw : ml.metadata.software ≠ none)
    (hint : intEncodingCond ml.test_colors = true →
      ∀ c ∈ ml.test_colors, ∀ v ∈ c, ((pyTrunc v : ℚ)) = v) :
    ∃ ml2, csmfRoundTrip ml = .ok ml2 ∧ mlEq ml2 ml = true := by
  obtain ⟨tcs, ord, ms, meta⟩ := ml
  obtain ⟨n, a, l, s⟩ := meta
  simp only at hne hnotes hauthor hloc hsw hint
  have htc : (if intEncodingCond tcs then
        tcs.map fun color => (⟨color.map pyTrunc, []⟩ : PbTestColor)
      else tcs.map fun color => (⟨[], color⟩ : PbTestColor)).map
        (fun color =>
          if color.f.length = 0 then color.c.map (fun i : ℤ => (i : ℚ))
          else color.f) = tcs := by
    by_cases hcond : intEncodingCond tcs = true
    · rw [if_pos hcond, List.map_map]
      have hpt : ∀ c ∈ tcs,
          ((fun color : PbTestColor =>
            if color.f.length = 0 then color.c.map (fun i : ℤ => (i : ℚ))
            else color.f) ∘
           fun color => (⟨color.map pyTrunc, []⟩ : PbTestColor)) c =
          id c := by
        intro c hc
        simp only [Function.comp_apply, List.length_nil, if_pos rfl,
          List.map_map, id]
        have : ∀ v ∈ c, ((fun i : ℤ => (i : ℚ)) ∘ pyTrunc) v = id v :=
          fun v hv => hint hcond c hc v hv
        rw [List.map_congr_left this, List.map_id]
        simp
      rw [List.map_congr_left hpt, List.map_id]
    · rw [if_neg hcond, List.map_map]
      have hpt : ∀ c ∈ tcs,
          ((fun color : PbTestColor =>
            if color.f.length = 0 then color.c.map (fun i : ℤ => (i : ℚ))
            else color.f) ∘
           fun color => (⟨[], color⟩ : PbTestColor)) c = id c := by
        intro c _
        match c with
        | [] => rfl
        | v :: t => rfl
      rw [List.map_congr_left hpt, List.map_id]
  have hmeta :
      (⟨some (if pyTruthyStr n then n.getD "" else ""),
        some (if pyTruthyStr a then a.getD "" else ""),
        some (if pyTruthyStr l then l.getD "" else ""),
        some (if pyTruthyStr s then s.getD "" else "")⟩ : MeasurementList_Notes) =
      ⟨n, a, l, s⟩ := by
    rw [metadata_field_roundtrip n hnotes, metadata_field_roundtrip a hauthor,
      metadata_field_roundtrip l hloc, metadata_field_roundtrip s hsw]
  have hbuf : csmfRoundTrip ⟨tcs, ord, ms, ⟨n, a, l, s⟩⟩ =
      .ok (buffer_to_measurement_list
        ⟨ms.map spd_measurement_to_proto,
         if pyTruthyStr n then n.getD "" else "",
         if pyTruthyStr a then a.getD "" else "",
         if pyTruthyStr l then l.getD "" else "",
         if pyTruthyStr s then s.getD "" else "",
         ord,
         if intEncodingCond tcs then
           tcs.map fun color => ⟨color.map pyTrunc, []⟩
         else tcs.map fun color => ⟨[], color⟩⟩) := by
    simp only [csmfRoundTrip, measurement_list_to_buffer]
    rw [if_neg hne]
    rfl
  refine ⟨_, hbuf, ?_⟩
  unfold buffer_to_measurement_list mlEq
  simp only [Bool.and_eq_true, beq_iff_eq]
  refine ⟨⟨⟨htc, trivial⟩, ?_, ?_⟩, hmeta⟩
  · simp
  · simp only [List.map_map]
    exact zip_all_roundtrip ms
/-- C1 witness: the amended round-trip theorem at a concrete
one-measurement batch carrying integral test colors and fully populated
metadata. -/
theorem C1_roundtrip_amended_witness :
    ∃ ml2, csmfRoundTrip mlWitness = .ok ml2 ∧ mlEq ml2 mlWitness = true :=
  C1_roundtrip_amended mlWitness (by decide) (by decide) (by decide) (by decide)
    (by decide)
    (by
      intro _ c hc v hv
      have hc2 : c = [0, 2] := by simpa [mlWitness] using hc
      subst hc2
      have hv2 : v = 0 ∨ v = 2 := by simpa using hv
      rcases hv2 with h | h <;> subst h <;> norm_num [pyTrunc])

/-- The shortname of a single-sample batch with default metadata is the
hex digest of the xxh32 hash of that sample's float64 bytes. -/
theorem hashBatch_shortname (v : ℕ) :
    shortname (hashBatch v) = hex8 (xxh32 (f64LEBytes v) 0) := rfl

/-- C7 counterexample: it is not true that changing the single spectral
sample of a batch with empty notes always changes the shortname: the
digest space has 2^32 values, so among the 2^32 + 1 distinct float64
patterns 0x3FF0000000000000 + i (all distinct positive doubles just
above 1.0) two different samples collide on the full shortname. -/
theorem C7_shortname_counterexample :
    ¬ ∀ v w : ℕ, v < 2 ^ 64 → w < 2 ^ 64 → v ≠ w →
      shortname (hashBatch v) ≠ shortname (hashBatch w) := by
  intro hclaim
  have hcard : Fintype.card (Fin M32) < Fintype.card (Fin (M32 + 1)) := by
    rw [Fintype.card_fin, Fintype.card_fin]
    exact Nat.lt_succ_self _
  obtain ⟨i, j, hij, heq⟩ := Fintype.exists_ne_map_eq_of_card_lt
    (fun i : Fin (M32 + 1) =>
      (⟨xxh32 (f64LEBytes (4607182418800017408 + i.val)) 0,
        xxh32_lt _ _⟩ : Fin M32))
    hcard
  have hvw : 4607182418800017408 + i.val ≠ 4607182418800017408 + j.val := by
    intro h
    exact hij (Fin.ext (by omega))
  have hpow : (2 : ℕ) ^ 64 = 18446744073709551616 := by norm_num
  have hiM : i.val < M32 + 1 := i.isLt
  have hjM : j.val < M32 + 1 := j.isLt
  have hMval : M32 = 4294967296 := rfl
  have h64i : 4607182418800017408 + i.val < 2 ^ 64 := by
    rw [hpow]
    omega
  have h64j : 4607182418800017408 + j.val < 2 ^ 64 := by
    rw [hpow]
    omega
  have hdig : xxh32 (f64LEBytes (4607182418800017408 + i.val)) 0 =
      xxh32 (f64LEBytes (4607182418800017408 + j.val)) 0 :=
    congrArg Fin.val heq
  exact hclaim _ _ h64i h64j hvw
    (by rw [hashBatch_shortname, hashBatch_shortname, hdig])

/-- C7 (amended): `shortname` equals `metadata.notes` whenever notes is
a non-empty string, and otherwise the xxh32 hex digest of the
concatenated spectral values, so any two batches with identical
spectral content and empty or absent notes share one shortname; a
single-sample change, however, only usually changes the 32-bit digest —
collisions exist. -/
theorem C7_shortname_determinism_amended (ml ml2 : Measurement_List)
    (s : String) :
    (ml.metadata.notes = some s → s ≠ "" → shortname ml = s) ∧
    ((ml.metadata.notes = none ∨ ml.metadata.notes = some "") →
      shortname ml = hex8 (xxh32 (msdBytes ml.measurements) 0)) ∧
    ((ml.metadata.notes = none ∨ ml.metadata.notes = some "") →
      (ml2.metadata.notes = none ∨ ml2.metadata.notes = some "") →
      ml.measurements.map (·.values) = ml2.measurements.map (·.values) →
      shortname ml = shortname ml2) := by
  have key : ∀ m : Measurement_List,
      m.metadata.notes = none ∨ m.metadata.notes = some "" →
      shortname m = hex8 (xxh32 (msdBytes m.measurements) 0) := by
    rintro m (h | h) <;> simp [shortname, h]
  refine ⟨?_, key ml, ?_⟩
  · intro h hs
    simp [shortname, h, hs]
  · intro h1 h2 hvals
    have hb : msdBytes ml.measurements = msdBytes ml2.measurements := by
      unfold msdBytes msdValues
      rw [hvals]
    rw [key ml h1, key ml2 h2, hb]

/-- C7 witness: the amended theorem evaluated on a batch with non-empty
notes, on a default-metadata batch, and on two identical-content
batches. -/
theorem C7_shortname_determinism_amended_witness :
    shortname mlWitness = "Random Test Measurements" ∧
    shortname (hashBatch 0) =
      hex8 (xxh32 (msdBytes (hashBatch 0).measurements) 0) ∧
    shortname (hashBatch 5) = shortname (hashBatch 5) :=
  ⟨(C7_shortname_determinism_amended mlWitness mlWitness
      "Random Test Measurements").1 rfl (by decide),
   (C7_shortname_determinism_amended (hashBatch 0) (hashBatch 0) "").2.1
     (Or.inl rfl),
   (C7_shortname_determinism_amended (hashBatch 5) (hashBatch 5) "").2.2
     (Or.inl rfl) (Or.inl rfl) rfl⟩

/-- C9 witness: the amended fallback behaviour at concrete metadata
values and an empty port buffer. -/
theorem C9_domain_fallback_amended_witness :
    spectrum_shape_selection "CR-300" 380 0 1 = some ⟨380, 780, 1⟩ ∧
    spectrum_shape_selection "CR-300" 380 780 1 = some ⟨380, 780, 1⟩ :=
  ⟨(C9_domain_fallback_amended 380 780 1 ⟨[]⟩ (by norm_num)).1,
   (C9_domain_fallback_amended 380 780 1 ⟨[]⟩ (by norm_num)).2.2.2.2.2.2⟩

end Specio
